import Mathlib

/-!
Verification of `cmd/wrserver/main.go` (Web Risk proxy server).

Shallow embedding: each HTTP handler of the source is translated into a pure
Lean function. External collaborators declared out of scope by the program
(the threat-evaluation engine, the static-asset file system, the
protobuf/JSON serializers, Go's `net/url` parser) are represented by
function parameters or by partial models faithful to their documented
behaviour; the handlers themselves mirror the Go control flow branch by
branch.
-/

namespace Wrserver

/- ## Constants (main.go lines 214-223) -/

def statusPath : String := "/status"

def findThreatPath : String := "/v1/uris:search"

def redirectPath : String := "/r"

def mimeJSON : String := "application/json"

def mimeProto : String := "application/x-protobuf"

/- ## Threat types and matches

`webrisk.ThreatType` is an integer enum from the engine package (outside
this file). Only the four values keyed in `threatTemplate` plus the
zero/unspecified value are distinguishable by this program, so the model
carries exactly those; `unspecified` stands for every value without a
registered template. -/

inductive ThreatType
  | unspecified
  | malware
  | socialEngineering
  | unwantedSoftware
  | socialEngineeringExtended
deriving DecidableEq, Repr

/-- `webrisk.URLThreat`: the engine's per-URL match record. The handlers
read only the threat type; `pattern` carries the rest of the match
identity so that distinct matches of equal type stay distinguishable. -/
structure ThreatMatch where
  threatType : ThreatType
  pattern : String
deriving DecidableEq, Repr

/-- The `threatTemplate` map (main.go lines 236-241); a Go map lookup with
its `ok` flag becomes an `Option`. -/
def threatTemplate : ThreatType → Option String
  | .malware => some "/malware.tmpl"
  | .unwantedSoftware => some "/unwanted.tmpl"
  | .socialEngineering => some "/social_engineering.tmpl"
  | .socialEngineeringExtended => some "/social_engineering.tmpl"
  | .unspecified => none

/- ## HTTP response model

One constructor per way a handler terminates. Constructors without an
explicit code are written by Go with the implicit 200 status
(`resp.Write` / `t.Execute` without `WriteHeader`). `noResponse` is a
handler returning without writing anything (net/http then sends an empty
200). `panicked` is a Go runtime panic (e.g. index out of range). -/

inductive Encoded
  | json (threatTypes : List ThreatType)
  | proto (threatTypes : List ThreatType)
deriving DecidableEq, Repr

/-- Wire format of an encoded body: the MIME string its encoding
corresponds to. -/
def formatOf : Encoded → String
  | .json _ => mimeJSON
  | .proto _ => mimeProto

/-- `webrisk.Stats`: opaque counters surfaced verbatim by `/status`. -/
structure Stats where
  queriesByDatabase : Nat
  queriesByCache : Nat
  queriesByAPI : Nat
  queriesFail : Nat
deriving DecidableEq, Repr

/-- The anonymous struct serialized by `serveStatus` (main.go lines
327-330): engine stats plus the engine error rendered as a string. -/
structure StatusBody where
  stats : Stats
  error : String
deriving DecidableEq, Repr

/-- The parsed URL produced by `url.Parse`. The handler uses the parsed
value only as a template parameter, so the model carries its raw text. -/
structure URL where
  raw : String
deriving DecidableEq, Repr

inductive HTTPResponse
  | notFound
  | error (msg : String) (code : Nat)
  | redirect (target : String) (code : Nat)
  | lookupBody (contentType : String) (content : Encoded)
  | statusBody (contentType : String) (content : StatusBody)
  | interstitial (threat : ThreatMatch) (composedTemplate : String) (target : URL)
  | noResponse
  | panicked (msg : String)
deriving DecidableEq, Repr

/-- True exactly on the runtime-panic outcome. -/
def isPanic : HTTPResponse → Bool
  | .panicked _ => true
  | _ => false

/-- The HTTP status code each response outcome carries. Go writes an
implicit 200 whenever a handler writes a body without calling
`WriteHeader`; a handler that returns without writing anything also
ends as an empty 200. A panic aborts the response (written 0 here). -/
def statusCode : HTTPResponse → Nat
  | .notFound => 404
  | .error _ c => c
  | .redirect _ c => c
  | .lookupBody _ _ => 200
  | .statusBody _ _ => 200
  | .interstitial _ _ _ => 200
  | .noResponse => 200
  | .panicked _ => 0

/- ## Serialization model

Request bodies are abstracted as tagged byte strings: `jsonEnc uri` is a
byte sequence that `protojson.Unmarshal` accepts as a
`SearchUrisRequest` with field `uri`, `protoEnc uri` likewise for
`proto.Unmarshal`, and `garbage` is a byte sequence valid as neither.
Each decoder succeeds exactly on its own format's encodings. -/

inductive RawBody
  | jsonEnc (uri : String)
  | protoEnc (uri : String)
  | garbage (bytes : String)
deriving DecidableEq, Repr

def protojsonUnmarshal : RawBody → Except String String
  | .jsonEnc uri => .ok uri
  | _ => .error "proto: syntax error"

def protoUnmarshal : RawBody → Except String String
  | .protoEnc uri => .ok uri
  | _ => .error "proto: cannot parse invalid wire-format data"

/- ## The codec (main.go `unmarshal` lines 257-292, `marshal` lines 294-318) -/

/-- The inbound request to the lookup endpoint as the two handler
functions observe it: HTTP method, the `alt` query parameter (`""` when
absent, as Go's `Query().Get`), the `Content-Type` header (`""` when
absent), and the body bytes. -/
structure LookupRequest where
  method : String
  altQuery : String
  contentType : String
  body : RawBody
deriving DecidableEq, Repr

/-- Lines 260-263 of `unmarshal`: the `alt` query parameter, falling back
to the `Content-Type` header when absent. -/
def effectiveAlt (req : LookupRequest) : String :=
  if req.altQuery = "" then req.contentType else req.altQuery

/-- The second `switch` of `unmarshal` (main.go lines 273-290): parse the
body according to the declared `Content-Type` header (not according to
the already-resolved `mime`); a header matching neither encoding leaves
the request message at its default value (`Uri = ""`), deliberately
without error. -/
def unmarshalBody (req : LookupRequest) (mime : String) :
    Except String (String × String) :=
  if req.contentType = mimeJSON then
    match protojsonUnmarshal req.body with
    | .error e => .error e
    | .ok uri => .ok (mime, uri)
  else if req.contentType = mimeProto then
    match protoUnmarshal req.body with
    | .error e => .error e
    | .ok uri => .ok (mime, uri)
  else
    .ok (mime, "")

/-- `unmarshal` (main.go lines 258-292). Returns the resolved MIME and the
decoded `pbReq.Uri`; Go mutates `pbReq` in place, the model returns the
field. -/
def unmarshal (req : LookupRequest) : Except String (String × String) :=
  if effectiveAlt req = "json" ∨ effectiveAlt req = mimeJSON then
    unmarshalBody req mimeJSON
  else if effectiveAlt req = "proto" ∨ effectiveAlt req = mimeProto then
    unmarshalBody req mimeProto
  else
    .error "invalid interchange format"

/-- The body `marshal` produces for a recognized MIME: the response
encoded per that MIME. -/
def encodeAs (mime : String) (threatTypes : List ThreatType) : Encoded :=
  if mime = mimeProto then .proto threatTypes else .json threatTypes

/-- `marshal` (main.go lines 295-318): sets the `Content-Type` header to
`mime` and writes the response encoded per `mime`; an unknown `mime`
is an error. `proto.Marshal`/`protojson.Marshal` cannot fail on this
message type, so serialization failure has no model branch. -/
def marshal (mime : String) (threatTypes : List ThreatType) :
    Except String HTTPResponse :=
  if mime = mimeProto then .ok (.lookupBody mime (.proto threatTypes))
  else if mime = mimeJSON then .ok (.lookupBody mime (.json threatTypes))
  else .error "invalid interchange format"

/- ## serveStatus (main.go lines 320-337)

`sb.Status()` returns the stats and an error; both are surfaced in a JSON
body. `json.Marshal` of a struct of integer counters and a string is
total in Go, so the unreachable 500 branch of the handler has no model
branch. -/

def serveStatus (status : Stats × Option String) : HTTPResponse :=
  let errStr := match status.2 with
    | some e => e
    | none => ""
  .statusBody mimeJSON ⟨status.1, errStr⟩

/- ## serveLookups (main.go lines 343-391) -/

/-- One iteration group of the response-composition loop: Go inserts every
match's threat type into a fresh map `tdm` and then appends the keys.
Map iteration order is unspecified in Go; the model fixes insertion
order, which is one admissible order (the claims about the result are
order-independent set statements). -/
def insertThreatKey (m : List ThreatType) (t : ThreatType) : List ThreatType :=
  if t ∈ m then m else m ++ [t]

def condense (uts : List ThreatMatch) : List ThreatType :=
  uts.foldl (fun m ut => insertThreatKey m ut.threatType) []

/-- The whole composition loop over `utss` (main.go lines 374-384):
per-URL condensed key lists appended into `pbResp.Threat.ThreatTypes`. -/
def aggregate (utss : List (List ThreatMatch)) : List ThreatType :=
  utss.foldl (fun acc uts => acc ++ condense uts) []

/-- `serveLookups` (main.go lines 343-391). The engine
(`sb.LookupURLsContext`) is an external collaborator passed as a
function from the queried URL list to its result. The returned `Bool`
records whether the engine was called. -/
def serveLookups (req : LookupRequest)
    (engine : List String → Except String (List (List ThreatMatch))) :
    HTTPResponse × Bool :=
  if req.method ≠ "POST" then
    (.error "invalid method" 400, false)
  else
    match unmarshal req with
    | .error e => (.error e 400, false)
    | .ok (mime, uri) =>
      match engine [uri] with
      | .error e => (.error e 500, true)
      | .ok utss =>
        match marshal mime (aggregate utss) with
        | .error e => (.error e 500, true)
        | .ok r => (r, true)

/- ## URL parsing (Go net/url)

Partial model of `url.Parse`, faithful to Go's documented rejection
rules on the inputs considered here: Go rejects any URL containing an
ASCII control byte (`stringContainsCTLByte`) and any invalid
percent-escape; a plain URL such as `http://example.com` parses. The
handler below is uniform in the parse outcome, so the model's error set
being a subset of Go's does not affect any theorem about the handler's
branches. -/

def stringContainsCTLByte (s : String) : Bool :=
  s.toList.any fun c => c.toNat < 0x20 ∨ c.toNat = 0x7f

def ishex (c : Char) : Bool :=
  ('0' ≤ c ∧ c ≤ '9') ∨ ('a' ≤ c ∧ c ≤ 'f') ∨ ('A' ≤ c ∧ c ≤ 'F')

def validEscapes : List Char → Bool
  | [] => true
  | '%' :: a :: b :: rest => ishex a && ishex b && validEscapes rest
  | '%' :: _ => false
  | _ :: rest => validEscapes rest

def urlParse (rawURL : String) : Except String URL :=
  if stringContainsCTLByte rawURL then
    .error "net/url: invalid control character in URL"
  else if ¬ validEscapes rawURL.toList then
    .error "invalid URL escape"
  else
    .ok ⟨rawURL⟩

/- ## Templates (main.go `parseTemplates` lines 393-409) -/

/-- `parseTemplates`: opens each path in the static-asset file system
(`fs`, an external collaborator) and folds the contents into one
template; template composition is abstracted as concatenation, failure
of any `fs.Open`/read propagates. -/
def parseTemplates (fs : String → Except String String) (acc : String) :
    List String → Except String String
  | [] => .ok acc
  | p :: rest =>
    match fs p with
    | .error e => .error e
    | .ok content => parseTemplates fs (acc ++ content) rest

/- ## serveRedirector (main.go lines 411-451) -/

/-- The interstitial production for one selected match (main.go lines
437-448): load the threat-specific fragment and the shared
`/interstitial.html` fragment, fail with a 500 on a load error,
otherwise execute the composed template against the threat and the
parsed URL. `t.Execute` is modelled as total rendering (its failure
branch only swaps the success write for a 500 and changes no control
flow before it). -/
def renderInterstitial (fs : String → Except String String) (parsedURL : URL)
    (threat : ThreatMatch) (tmpl : String) : HTTPResponse :=
  match parseTemplates fs "" [tmpl, "/interstitial.html"] with
  | .error e => .error e 500
  | .ok composed => .interstitial threat composed parsedURL

/-- The match-scan loop of `serveRedirector` (main.go lines 435-450):
the first match whose threat type has a registered template wins.
Falling off the loop writes nothing. -/
def redirectorLoop (fs : String → Except String String) (parsedURL : URL) :
    List ThreatMatch → HTTPResponse
  | [] => .noResponse
  | threat :: rest =>
    match threatTemplate threat.threatType with
    | some tmpl => renderInterstitial fs parsedURL threat tmpl
    | none => redirectorLoop fs parsedURL rest

/-- `serveRedirector` (main.go lines 413-451). `rawURL` is the `url`
query parameter (`""` when absent), `path` the request path, `lookup`
the engine's result for `[rawURL]`. Go indexes `threats[0]` without a
length check (lines 429 and 435): an empty outer result list is a
runtime panic. -/
def serveRedirector (fs : String → Except String String)
    (rawURL : String) (path : String)
    (lookup : Except String (List (List ThreatMatch))) : HTTPResponse :=
  if rawURL = "" ∨ path ≠ redirectPath then
    .notFound
  else
    match urlParse rawURL with
    | .error e => .error e 500
    | .ok parsedURL =>
      match lookup with
      | .error e => .error e 500
      | .ok threats =>
        match threats with
        | [] => .panicked "runtime error: index out of range [0] with length 0"
        | ts :: _ =>
          if ts.length = 0 then .redirect rawURL 302
          else redirectorLoop fs parsedURL ts

/- ## runServer / main shutdown ordering (main.go lines 479-511, 562-566)

Event model of the three concurrent tasks around shutdown:
the shutdown goroutine (`<-exit; srv.Shutdown(...)`), the serve goroutine
(`srv.ListenAndServe(); close(down)`), and `main` (`<-down; exit`).
An execution is a linear order on the events; it is admissible when it
respects every program-order and synchronization edge of the code. -/

inductive ShutdownEvent
  | sigRecv
  | shutdownBegin
  | listenReturn
  | downClose
  | downRecv
  | mainExit
  | shutdownEnd
deriving DecidableEq, Repr

/-- The happens-before edges induced by the code:
program order within each goroutine, channel synchronization
(`close(down)` before `<-down` completes), and the net/http contract
that `srv.Shutdown` first closes the listeners, causing
`ListenAndServe` to return `ErrServerClosed` once shutdown has begun
(not once it has finished: `Shutdown` then keeps waiting for in-flight
connections to drain). There is deliberately no edge from
`shutdownEnd` to `listenReturn`, `downClose` or `mainExit`: the code
establishes none. -/
def runServerEdges : List (ShutdownEvent × ShutdownEvent) :=
  [ (.sigRecv, .shutdownBegin),       -- goroutine: <-exit then srv.Shutdown
    (.shutdownBegin, .shutdownEnd),   -- a call precedes its return
    (.shutdownBegin, .listenReturn),  -- net/http: Shutdown closes listeners
    (.listenReturn, .downClose),      -- goroutine: ListenAndServe then close(down)
    (.downClose, .downRecv),          -- channel: close happens-before receive
    (.downRecv, .mainExit) ]          -- main: <-down then process exit

def allShutdownEvents : List ShutdownEvent :=
  [ .sigRecv, .shutdownBegin, .listenReturn, .downClose, .downRecv,
    .mainExit, .shutdownEnd ]

/-- A trace is an admissible execution when it schedules every event
exactly once and respects every edge. -/
def admissibleTrace (tr : List ShutdownEvent) : Bool :=
  tr.length = allShutdownEvents.length &&
  allShutdownEvents.all (fun e => tr.contains e) &&
  runServerEdges.all (fun p => tr.indexOf p.1 < tr.indexOf p.2)

/-- The schedule in which a request is still draining when
`ListenAndServe` returns: `main` exits before `Shutdown` finishes. -/
def drainingTrace : List ShutdownEvent :=
  [ .sigRecv, .shutdownBegin, .listenReturn, .downClose, .downRecv,
    .mainExit, .shutdownEnd ]

/- ## Helper lemmas -/

theorem mem_insertThreatKey (m : List ThreatType) (t x : ThreatType) :
    x ∈ insertThreatKey m t ↔ x ∈ m ∨ x = t := by
  unfold insertThreatKey
  by_cases h : t ∈ m
  · simp only [if_pos h, List.mem_append]
    constructor
    · exact Or.inl
    · rintro (hx | rfl)
      · exact hx
      · exact h
  · simp [if_neg h]

theorem nodup_insertThreatKey (m : List ThreatType) (t : ThreatType)
    (h : m.Nodup) : (insertThreatKey m t).Nodup := by
  unfold insertThreatKey
  by_cases ht : t ∈ m
  · simpa [if_pos ht] using h
  · simp [if_neg ht, List.nodup_append, h, ht]

theorem mem_condense_foldl (uts : List ThreatMatch) :
    ∀ (acc : List ThreatType) (x : ThreatType),
      (x ∈ uts.foldl (fun m ut => insertThreatKey m ut.threatType) acc ↔
        x ∈ acc ∨ x ∈ uts.map (·.threatType)) := by
  induction uts with
  | nil => simp
  | cons u rest ih =>
    intro acc x
    simp only [List.foldl_cons, List.map_cons, List.mem_cons]
    rw [ih, mem_insertThreatKey]
    tauto

theorem nodup_condense_foldl (uts : List ThreatMatch) :
    ∀ acc : List ThreatType, acc.Nodup →
      (uts.foldl (fun m ut => insertThreatKey m ut.threatType) acc).Nodup := by
  induction uts with
  | nil => intro acc h; simpa using h
  | cons u rest ih =>
    intro acc h
    exact ih _ (nodup_insertThreatKey _ _ h)

theorem mem_condense (uts : List ThreatMatch) (x : ThreatType) :
    x ∈ condense uts ↔ x ∈ uts.map (·.threatType) := by
  unfold condense
  rw [mem_condense_foldl]
  simp

theorem nodup_condense (uts : List ThreatMatch) : (condense uts).Nodup :=
  nodup_condense_foldl uts [] (by simp)

theorem aggregate_singleton (uts : List ThreatMatch) :
    aggregate [uts] = condense uts := by
  simp [aggregate]

theorem unmarshalBody_mime (req : LookupRequest) (m mime uri : String)
    (h : unmarshalBody req m = .ok (mime, uri)) : mime = m := by
  unfold unmarshalBody at h
  split at h
  · cases hp : protojsonUnmarshal req.body <;> rw [hp] at h <;>
      simp_all
  · split at h
    · cases hp : protoUnmarshal req.body <;> rw [hp] at h <;>
        simp_all
    · simp_all

theorem unmarshal_mime (req : LookupRequest) (mime uri : String)
    (h : unmarshal req = .ok (mime, uri)) :
    mime = mimeJSON ∨ mime = mimeProto := by
  unfold unmarshal at h
  split at h
  · exact Or.inl (unmarshalBody_mime req _ _ _ h)
  · split at h
    · exact Or.inr (unmarshalBody_mime req _ _ _ h)
    · simp_all

theorem marshal_recognized (mime : String) (tts : List ThreatType)
    (h : mime = mimeJSON ∨ mime = mimeProto) :
    marshal mime tts = .ok (.lookupBody mime (encodeAs mime tts)) := by
  rcases h with h | h <;> subst h <;> rfl

theorem formatOf_encodeAs (mime : String) (tts : List ThreatType)
    (h : mime = mimeJSON ∨ mime = mimeProto) :
    formatOf (encodeAs mime tts) = mime := by
  rcases h with h | h <;> subst h <;> rfl

theorem serveLookups_ok (req : LookupRequest)
    (engine : List String → Except String (List (List ThreatMatch)))
    (mime uri : String) (utss : List (List ThreatMatch))
    (hm : req.method = "POST")
    (hu : unmarshal req = .ok (mime, uri))
    (he : engine [uri] = .ok utss) :
    serveLookups req engine =
      (.lookupBody mime (encodeAs mime (aggregate utss)), true) := by
  unfold serveLookups
  simp only [hm, hu, he, ne_eq, not_true_eq_false, if_false,
    marshal_recognized mime _ (unmarshal_mime req mime uri hu)]

theorem serveLookups_badRequest (req : LookupRequest)
    (engine : List String → Except String (List (List ThreatMatch)))
    (e : String)
    (hm : req.method = "POST")
    (hu : unmarshal req = .error e) :
    serveLookups req engine = (.error e 400, false) := by
  unfold serveLookups
  simp only [hm, hu, ne_eq, not_true_eq_false, if_false]

theorem redirectorLoop_skip (fs : String → Except String String) (u : URL)
    (pre l : List ThreatMatch)
    (hpre : ∀ x ∈ pre, threatTemplate x.threatType = none) :
    redirectorLoop fs u (pre ++ l) = redirectorLoop fs u l := by
  induction pre with
  | nil => rfl
  | cons p ps ih =>
    have hp : threatTemplate p.threatType = none := hpre p (by simp)
    rw [List.cons_append]
    rw [show redirectorLoop fs u (p :: (ps ++ l)) =
        (match threatTemplate p.threatType with
          | some tmpl => renderInterstitial fs u p tmpl
          | none => redirectorLoop fs u (ps ++ l)) from rfl]
    rw [hp]
    exact ih fun x hx => hpre x (by simp [hx])

theorem redirectorLoop_no_panic (fs : String → Except String String)
    (u : URL) (l : List ThreatMatch) :
    isPanic (redirectorLoop fs u l) = false := by
  induction l with
  | nil => rfl
  | cons t rest ih =>
    rw [show redirectorLoop fs u (t :: rest) =
        (match threatTemplate t.threatType with
          | some tmpl => renderInterstitial fs u t tmpl
          | none => redirectorLoop fs u rest) from rfl]
    cases ht : threatTemplate t.threatType with
    | none => simpa using ih
    | some tmpl =>
      simp only [renderInterstitial]
      cases hp : parseTemplates fs "" [tmpl, "/interstitial.html"] <;> rfl

theorem serveRedirector_parsed (fs : String → Except String String)
    (rawURL : String) (u : URL) (ts : List ThreatMatch)
    (rest : List (List ThreatMatch))
    (hne : rawURL ≠ "")
    (hparse : urlParse rawURL = .ok u) :
    serveRedirector fs rawURL redirectPath (.ok (ts :: rest)) =
      if ts.length = 0 then .redirect rawURL 302
      else redirectorLoop fs u ts := by
  unfold serveRedirector
  rw [if_neg (by simp [hne]), hparse]

/- ## Concrete fixtures -/

def trivialFS : String → Except String String := fun _ => .ok "TMPL "

def failFS : String → Except String String := fun _ => .error "open: file does not exist"

def goodURL : String := "http://google.com"

/-- A present but malformed `url` parameter: Go's `url.Parse` rejects any
URL containing an ASCII control byte. -/
def malformedURL : String := "http://a\x01b"

def reqJSON : LookupRequest :=
  ⟨"POST", "json", mimeJSON, .jsonEnc "http://bad1url.org"⟩

def reqAltProto : LookupRequest :=
  ⟨"POST", "proto", mimeJSON, .jsonEnc "http://u.example"⟩

def reqNoFormat : LookupRequest := ⟨"POST", "", "", .garbage "hello"⟩

def reqBadBody : LookupRequest := ⟨"POST", "json", mimeJSON, .garbage "not json"⟩

def utsAAB : List ThreatMatch :=
  [⟨.malware, "a"⟩, ⟨.malware, "b"⟩, ⟨.unwantedSoftware, "c"⟩]

def engineAAB : List String → Except String (List (List ThreatMatch)) :=
  fun _ => .ok [utsAAB]

def unknownMatch : ThreatMatch := ⟨.unspecified, "p0"⟩

def seMatch : ThreatMatch := ⟨.socialEngineering, "p1"⟩

def malwareMatch : ThreatMatch := ⟨.malware, "p2"⟩

/- ## Claim theorems -/

/-- Claim C1, as stated, is false: for the present but malformed `url`
parameter `malformedURL` the redirect handler answers with
`http.Error(..., http.StatusInternalServerError)` — status 500, a server
error, not a 4xx client error. -/
theorem redirect_malformed_url_not_4xx :
    serveRedirector trivialFS malformedURL redirectPath (.ok [[]]) =
      .error "net/url: invalid control character in URL" 500 ∧
    ¬ (400 ≤ statusCode
          (serveRedirector trivialFS malformedURL redirectPath (.ok [[]])) ∧
        statusCode
          (serveRedirector trivialFS malformedURL redirectPath (.ok [[]])) <
          500) := by
  constructor
  · rfl
  · decide

/-- Claim C1 (amended): for every request to the redirect endpoint whose
`url` query parameter is present but fails URL parsing, the handler
responds with a 500 Internal Server Error carrying the parse error as a
plain-text reason (`http.Error`); it does not crash. -/
theorem redirect_malformed_url_500
    (fs : String → Except String String) (rawURL e : String)
    (lookup : Except String (List (List ThreatMatch)))
    (hne : rawURL ≠ "")
    (hparse : urlParse rawURL = .error e) :
    serveRedirector fs rawURL redirectPath lookup = .error e 500 := by
  unfold serveRedirector
  rw [if_neg (by simp [hne]), hparse]

/-- Witness for `redirect_malformed_url_500` at the concrete malformed
URL. -/
theorem redirect_malformed_url_500_witness :
    serveRedirector trivialFS malformedURL redirectPath (.ok [[]]) =
      .error "net/url: invalid control character in URL" 500 :=
  redirect_malformed_url_500 trivialFS malformedURL
    "net/url: invalid control character in URL" (.ok [[]]) (by decide) rfl

/-- Claim C2: for every lookup request whose decode succeeds and whose
engine call returns the match set `uts` for the queried URL, the
response's threat-type collection is duplicate-free and holds exactly
the threat types occurring in `uts`; by the membership characterisation
any permutation of the matches yields the same collection as a set. -/
theorem lookup_threat_types_deduplicated
    (req : LookupRequest)
    (engine : List String → Except String (List (List ThreatMatch)))
    (mime uri : String) (uts : List ThreatMatch)
    (hm : req.method = "POST")
    (hu : unmarshal req = .ok (mime, uri))
    (he : engine [uri] = .ok [uts]) :
    serveLookups req engine =
      (.lookupBody mime (encodeAs mime (condense uts)), true) ∧
    (condense uts).Nodup ∧
    (∀ t : ThreatType, t ∈ condense uts ↔ t ∈ uts.map (·.threatType)) ∧
    (∀ uts' : List ThreatMatch, uts.Perm uts' →
      ∀ t : ThreatType, t ∈ condense uts' ↔ t ∈ condense uts) := by
  refine ⟨?_, nodup_condense uts, fun t => mem_condense uts t, ?_⟩
  · rw [← aggregate_singleton uts]
    exact serveLookups_ok req engine mime uri [uts] hm hu he
  · intro uts' hperm t
    rw [mem_condense, mem_condense]
    exact ((hperm.map (·.threatType)).mem_iff).symm

/-- Witness for `lookup_threat_types_deduplicated`: the engine returns
match types Malware, Malware, UnwantedSoftware; the response carries
exactly Malware and UnwantedSoftware, once each. -/
theorem lookup_threat_types_deduplicated_witness :
    serveLookups reqJSON engineAAB =
      (.lookupBody mimeJSON (.json [.malware, .unwantedSoftware]), true) ∧
    (condense utsAAB).Nodup :=
  ⟨(lookup_threat_types_deduplicated reqJSON engineAAB mimeJSON
      "http://bad1url.org" utsAAB rfl rfl rfl).1,
   (lookup_threat_types_deduplicated reqJSON engineAAB mimeJSON
      "http://bad1url.org" utsAAB rfl rfl rfl).2.1⟩

/-- Claim C3: whenever decoding resolves a wire format, the lookup
response is serialized in exactly that format with the matching
`Content-Type` header; a request whose format cannot be resolved is
answered 400 with no engine call made. -/
theorem lookup_format_round_trip
    (req : LookupRequest)
    (engine : List String → Except String (List (List ThreatMatch)))
    (hm : req.method = "POST") :
    (∀ (mime uri : String) (utss : List (List ThreatMatch)),
      unmarshal req = .ok (mime, uri) → engine [uri] = .ok utss →
      serveLookups req engine =
        (.lookupBody mime (encodeAs mime (aggregate utss)), true) ∧
      formatOf (encodeAs mime (aggregate utss)) = mime) ∧
    (∀ e : String, unmarshal req = .error e →
      serveLookups req engine = (.error e 400, false)) := by
  constructor
  · intro mime uri utss hu he
    exact ⟨serveLookups_ok req engine mime uri utss hm hu he,
      formatOf_encodeAs mime _ (unmarshal_mime req mime uri hu)⟩
  · intro e hu
    exact serveLookups_badRequest req engine e hm hu

/-- Witness for `lookup_format_round_trip`: a JSON-selected request is
answered in JSON; a request with no recognizable format is answered 400
without an engine call. -/
theorem lookup_format_round_trip_witness :
    serveLookups reqJSON engineAAB =
      (.lookupBody mimeJSON (.json [.malware, .unwantedSoftware]), true) ∧
    serveLookups reqNoFormat engineAAB =
      (.error "invalid interchange format" 400, false) :=
  ⟨((lookup_format_round_trip reqJSON engineAAB rfl).1 mimeJSON
      "http://bad1url.org" [utsAAB] rfl rfl).1,
   (lookup_format_round_trip reqNoFormat engineAAB rfl).2
      "invalid interchange format" rfl⟩

theorem unmarshalBody_body_error (req : LookupRequest) (m : String)
    (h : (req.contentType = mimeJSON ∧
            ∃ e, protojsonUnmarshal req.body = .error e) ∨
         (req.contentType = mimeProto ∧
            ∃ e, protoUnmarshal req.body = .error e)) :
    ∃ e, unmarshalBody req m = .error e := by
  rcases h with ⟨hc, e, he⟩ | ⟨hc, e, he⟩
  · refine ⟨e, ?_⟩
    unfold unmarshalBody
    rw [hc, if_pos rfl, he]
  · refine ⟨e, ?_⟩
    unfold unmarshalBody
    rw [hc, if_neg (by decide), if_pos rfl, he]

/-- Claim C4: for every POST to the lookup endpoint, a nonempty `alt`
query selector alone determines the resolved wire format (the
`Content-Type` header is overridden); if neither the selector nor the
header yields a recognized value, or the body fails to parse for the
declared content type, the handler answers 400 and the engine is never
called. -/
theorem lookup_alt_precedence
    (req : LookupRequest)
    (engine : List String → Except String (List (List ThreatMatch))) :
    (∀ mime uri : String, req.altQuery ≠ "" →
      unmarshal req = .ok (mime, uri) →
      ((req.altQuery = "json" ∨ req.altQuery = mimeJSON) ∧ mime = mimeJSON) ∨
      ((req.altQuery = "proto" ∨ req.altQuery = mimeProto) ∧
        mime = mimeProto)) ∧
    (req.method = "POST" →
      ¬ (effectiveAlt req = "json" ∨ effectiveAlt req = mimeJSON) →
      ¬ (effectiveAlt req = "proto" ∨ effectiveAlt req = mimeProto) →
      serveLookups req engine =
        (.error "invalid interchange format" 400, false)) ∧
    (req.method = "POST" →
      ((req.contentType = mimeJSON ∧
          ∃ e, protojsonUnmarshal req.body = .error e) ∨
       (req.contentType = mimeProto ∧
          ∃ e, protoUnmarshal req.body = .error e)) →
      ∃ msg, serveLookups req engine = (.error msg 400, false)) := by
  refine ⟨?_, ?_, ?_⟩
  · intro mime uri halt hu
    have hea : effectiveAlt req = req.altQuery := by
      simp [effectiveAlt, halt]
    unfold unmarshal at hu
    by_cases h1 : effectiveAlt req = "json" ∨ effectiveAlt req = mimeJSON
    · rw [if_pos h1] at hu
      exact Or.inl ⟨by rwa [hea] at h1, unmarshalBody_mime req _ _ _ hu⟩
    · rw [if_neg h1] at hu
      by_cases h2 : effectiveAlt req = "proto" ∨ effectiveAlt req = mimeProto
      · rw [if_pos h2] at hu
        exact Or.inr ⟨by rwa [hea] at h2, unmarshalBody_mime req _ _ _ hu⟩
      · rw [if_neg h2] at hu
        exact absurd hu (by simp)
  · intro hm h1 h2
    have hu : unmarshal req = .error "invalid interchange format" := by
      unfold unmarshal
      rw [if_neg h1, if_neg h2]
    exact serveLookups_badRequest req engine _ hm hu
  · intro hm hbody
    have hu : ∃ e, unmarshal req = .error e := by
      unfold unmarshal
      by_cases h1 : effectiveAlt req = "json" ∨ effectiveAlt req = mimeJSON
      · rw [if_pos h1]
        exact unmarshalBody_body_error req mimeJSON hbody
      · rw [if_neg h1]
        by_cases h2 : effectiveAlt req = "proto" ∨ effectiveAlt req = mimeProto
        · rw [if_pos h2]
          exact unmarshalBody_body_error req mimeProto hbody
        · rw [if_neg h2]
          exact ⟨_, rfl⟩
    obtain ⟨e, he⟩ := hu
    exact ⟨e, serveLookups_badRequest req engine e hm he⟩

/-- Witness for `lookup_alt_precedence`: `alt=proto` overrides a JSON
`Content-Type`; a request with no recognizable format and a request
with an unparseable JSON body are both answered 400 with no engine
call. -/
theorem lookup_alt_precedence_witness :
    ((((reqAltProto.altQuery = "json" ∨ reqAltProto.altQuery = mimeJSON) ∧
        mimeProto = mimeJSON) ∨
      ((reqAltProto.altQuery = "proto" ∨ reqAltProto.altQuery = mimeProto) ∧
        mimeProto = mimeProto))) ∧
    serveLookups reqNoFormat engineAAB =
      (.error "invalid interchange format" 400, false) ∧
    (∃ msg, serveLookups reqBadBody engineAAB = (.error msg 400, false)) :=
  ⟨(lookup_alt_precedence reqAltProto engineAAB).1 mimeProto
      "http://u.example" (by decide) rfl,
   (lookup_alt_precedence reqNoFormat engineAAB).2.1 rfl (by decide)
      (by decide),
   (lookup_alt_precedence reqBadBody engineAAB).2.2 rfl
      (Or.inl ⟨rfl, ⟨"proto: syntax error", rfl⟩⟩)⟩

/-- Claim C5: for every redirect request whose URL parses and whose
engine call yields an empty match set for the queried URL, the handler
answers a 302-style redirect to the original raw URL unchanged; the
response is the same for every template file system, so no interstitial
template is loaded or rendered. -/
theorem redirect_safe_url_302
    (fs fs' : String → Except String String) (rawURL : String) (u : URL)
    (rest : List (List ThreatMatch))
    (hne : rawURL ≠ "")
    (hparse : urlParse rawURL = .ok u) :
    serveRedirector fs rawURL redirectPath (.ok ([] :: rest)) =
      .redirect rawURL 302 ∧
    serveRedirector fs rawURL redirectPath (.ok ([] :: rest)) =
      serveRedirector fs' rawURL redirectPath (.ok ([] :: rest)) := by
  have key : ∀ g : String → Except String String,
      serveRedirector g rawURL redirectPath (.ok ([] :: rest)) =
        .redirect rawURL 302 := by
    intro g
    rw [serveRedirector_parsed g rawURL u [] rest hne hparse]
    rfl
  exact ⟨key fs, (key fs).trans (key fs').symm⟩

/-- Witness for `redirect_safe_url_302` at `http://google.com` with zero
matches. -/
theorem redirect_safe_url_302_witness :
    serveRedirector trivialFS goodURL redirectPath (.ok [[]]) =
      .redirect goodURL 302 ∧
    serveRedirector trivialFS goodURL redirectPath (.ok [[]]) =
      serveRedirector failFS goodURL redirectPath (.ok [[]]) :=
  redirect_safe_url_302 trivialFS failFS goodURL ⟨goodURL⟩ [] (by decide) rfl

/-- Claim C6: for every redirect request whose URL parses and whose
match set is `pre ++ m :: suf` with no registered template in `pre` and
a registered template for `m`, the handler renders the interstitial of
`m` — the first template-eligible match — and the outcome does not
depend on the matches after it; SocialEngineering and
SocialEngineeringExtended map to the same template. -/
theorem redirect_first_eligible_template
    (fs : String → Except String String) (rawURL : String) (u : URL)
    (pre suf : List ThreatMatch) (m : ThreatMatch) (tmpl : String)
    (rest : List (List ThreatMatch))
    (hne : rawURL ≠ "")
    (hparse : urlParse rawURL = .ok u)
    (hpre : ∀ x ∈ pre, threatTemplate x.threatType = none)
    (hm : threatTemplate m.threatType = some tmpl) :
    serveRedirector fs rawURL redirectPath (.ok ((pre ++ m :: suf) :: rest)) =
      renderInterstitial fs u m tmpl ∧
    (∀ suf' : List ThreatMatch,
      serveRedirector fs rawURL redirectPath
          (.ok ((pre ++ m :: suf) :: rest)) =
        serveRedirector fs rawURL redirectPath
          (.ok ((pre ++ m :: suf') :: rest))) ∧
    threatTemplate .socialEngineering =
      threatTemplate .socialEngineeringExtended := by
  have key : ∀ s : List ThreatMatch,
      serveRedirector fs rawURL redirectPath (.ok ((pre ++ m :: s) :: rest)) =
        renderInterstitial fs u m tmpl := by
    intro s
    rw [serveRedirector_parsed fs rawURL u (pre ++ m :: s) rest hne hparse]
    rw [if_neg (by simp)]
    rw [redirectorLoop_skip fs u pre (m :: s) hpre]
    rw [show redirectorLoop fs u (m :: s) =
        (match threatTemplate m.threatType with
          | some tmpl => renderInterstitial fs u m tmpl
          | none => redirectorLoop fs u s) from rfl]
    rw [hm]
  exact ⟨key suf, fun suf' => (key suf).trans (key suf').symm, rfl⟩

/-- Witness for `redirect_first_eligible_template`: with matches
[unregistered, SocialEngineering, Malware] the SocialEngineering
interstitial is rendered, not the Malware one. -/
theorem redirect_first_eligible_template_witness :
    serveRedirector trivialFS goodURL redirectPath
        (.ok [[unknownMatch, seMatch, malwareMatch]]) =
      renderInterstitial trivialFS ⟨goodURL⟩ seMatch
        "/social_engineering.tmpl" :=
  (redirect_first_eligible_template trivialFS goodURL ⟨goodURL⟩
      [unknownMatch] [malwareMatch] seMatch "/social_engineering.tmpl" []
      (by decide) rfl (by decide) rfl).1

/-- Claim C7: for every redirect request whose URL parses and whose
match set is non-empty but contains no threat type with a registered
template, the handler performs no action and writes no response body —
neither a redirect nor an error. -/
theorem redirect_no_template_no_action
    (fs : String → Except String String) (rawURL : String) (u : URL)
    (ts : List ThreatMatch) (rest : List (List ThreatMatch))
    (hne : rawURL ≠ "")
    (hparse : urlParse rawURL = .ok u)
    (hts : ts ≠ [])
    (hnone : ∀ x ∈ ts, threatTemplate x.threatType = none) :
    serveRedirector fs rawURL redirectPath (.ok (ts :: rest)) =
      .noResponse := by
  rw [serveRedirector_parsed fs rawURL u ts rest hne hparse]
  rw [if_neg (by simpa using hts)]
  have h2 : redirectorLoop fs u ts = redirectorLoop fs u [] := by
    have h3 := redirectorLoop_skip fs u ts [] hnone
    rwa [List.append_nil] at h3
  rw [h2]
  rfl

/-- Witness for `redirect_no_template_no_action` at a single match with
no registered template. -/
theorem redirect_no_template_no_action_witness :
    serveRedirector trivialFS goodURL redirectPath (.ok [[unknownMatch]]) =
      .noResponse :=
  redirect_no_template_no_action trivialFS goodURL ⟨goodURL⟩ [unknownMatch]
    [] (by decide) rfl (by decide) (by decide)

/-- Claim C8: for every engine status result — including one carrying an
error — the status handler answers 200 with a structured JSON body in
which the error, if any, appears as a string field. -/
theorem status_always_200 (st : Stats) (err : Option String) :
    serveStatus (st, err) = .statusBody mimeJSON ⟨st, err.getD ""⟩ ∧
    statusCode (serveStatus (st, err)) = 200 := by
  cases err <;> exact ⟨rfl, rfl⟩

/-- Claim C9 (refutation): `drainingTrace` is an execution admissible for
every happens-before edge the code establishes, yet in it `main`
receives the completion signal and exits before `srv.Shutdown` has
finished: the completion signal is not ordered after the end of the
orderly shutdown, contradicting both the claim and the comment on
`runServer` in the source. -/
theorem shutdown_completion_signal_premature :
    admissibleTrace drainingTrace = true ∧
    drainingTrace.indexOf ShutdownEvent.downRecv <
      drainingTrace.indexOf ShutdownEvent.shutdownEnd ∧
    drainingTrace.indexOf ShutdownEvent.mainExit <
      drainingTrace.indexOf ShutdownEvent.shutdownEnd := by
  decide

/-- Claim C10: the redirect handler indexes `threats[0]` without a
length check — for every engine result with a non-empty outer list the
access is safe (no panic for any match set), and for the empty outer
list the handler panics; one result set per queried URL is thus a
required precondition of the endpoint. -/
theorem redirect_indexes_first_result
    (fs : String → Except String String) (rawURL : String) (u : URL)
    (hne : rawURL ≠ "")
    (hparse : urlParse rawURL = .ok u) :
    (∀ (ts : List ThreatMatch) (rest : List (List ThreatMatch)),
      isPanic (serveRedirector fs rawURL redirectPath (.ok (ts :: rest))) =
        false) ∧
    serveRedirector fs rawURL redirectPath (.ok []) =
      .panicked "runtime error: index out of range [0] with length 0" := by
  constructor
  · intro ts rest
    rw [serveRedirector_parsed fs rawURL u ts rest hne hparse]
    by_cases h : ts.length = 0
    · rw [if_pos h]
      rfl
    · rw [if_neg h]
      exact redirectorLoop_no_panic fs u ts
  · unfold serveRedirector
    rw [if_neg (by simp [hne]), hparse]

/-- Witness for `redirect_indexes_first_result`: safe on a singleton
outer list, panic on the empty outer list. -/
theorem redirect_indexes_first_result_witness :
    isPanic (serveRedirector trivialFS goodURL redirectPath
        (.ok [[malwareMatch]])) = false ∧
    serveRedirector trivialFS goodURL redirectPath (.ok []) =
      .panicked "runtime error: index out of range [0] with length 0" :=
  ⟨(redirect_indexes_first_result trivialFS goodURL ⟨goodURL⟩ (by decide)
      rfl).1 [malwareMatch] [],
   (redirect_indexes_first_result trivialFS goodURL ⟨goodURL⟩ (by decide)
      rfl).2⟩

end Wrserver
